import Mathlib

/-!
Verification of the Financial AI Agent query router and market-data layer.

Shallow embedding of the pure logic of `streamlit.py` (class `MultiAgentSystem`
and the session-history handling of `main`) and of `simple_streamlit.py`
(`display_chat_history`).  External effects (the Groq chat-completion endpoint,
the yfinance market-data provider, wall-clock time and the `st.cache_data`
store) are modelled as explicit environments threaded through the functions.
Machine floats of the source are modelled as exact rationals; Python's
`round(x, 2)` is modelled as rounding to a multiple of 1/100 (tie behaviour is
immaterial to every statement proved here).
-/

/-- A value stored in one field of a stock-data record.  The Python dict mixes
numbers (prices, changes) and strings ("N/A", "API Limited") in the same
positions, so fields carry this sum type. -/
inductive FieldVal where
  | num : ℚ → FieldVal
  | str : String → FieldVal
  deriving DecidableEq, Repr

/-- Rendering of a field value into the prompt text (`str(...)` interpolation
in the Python f-strings; the decimal formatting of floats is abstracted by the
`ToString` instance of `ℚ`, no theorem depends on it). -/
def FieldVal.render : FieldVal → String
  | .num q => toString q
  | .str s => s

/-- The subset of the yfinance `stock.info` dictionary that
`get_stock_data` reads.  A `none` entry models an absent key, so that
`Option.getD` mirrors Python's `info.get(key, default)`. -/
structure Info where
  marketCap : Option FieldVal
  trailingPE : Option FieldVal
  dividendYield : Option FieldVal
  fiftyTwoWeekHigh : Option FieldVal
  fiftyTwoWeekLow : Option FieldVal
  longName : Option String
  sector : Option String
  industry : Option String
  volume : Option FieldVal
  deriving DecidableEq, Repr

/-- The empty info dictionary (`info = {}` in the source, used when
`stock.info` raises). -/
def Info.empty : Info := ⟨none, none, none, none, none, none, none, none, none⟩

/-- A stock-data record: the flat field mapping returned by
`get_stock_data` / `get_fallback_stock_data`.  The Python keys
`52_week_high` / `52_week_low` are rendered as `week52_high` / `week52_low`.
`error_msg` and `note` are the two extra keys that only the fallback
constructor adds. -/
structure StockData where
  symbol : String
  current_price : FieldVal
  previous_close : FieldVal
  price_change : FieldVal
  price_change_percent : FieldVal
  market_cap : FieldVal
  pe_ratio : FieldVal
  dividend_yield : FieldVal
  week52_high : FieldVal
  week52_low : FieldVal
  company_name : String
  sector : String
  industry : String
  volume : FieldVal
  data_source : String
  error_msg : Option String
  note : Option String
  deriving DecidableEq, Repr

/-- Environment of one yfinance lookup: the outcome of
`stock.history(period="5d")` (the list of Close values, or the message of the
raised exception — a network error surfaces here) and the outcome of
`stock.info`. -/
structure YFEnv where
  history : Except String (List ℚ)
  info : Except String Info

/-- Python's `str.upper()` (the symbols at play are ASCII tickers, for which
Python's Unicode-aware uppercasing agrees with `Char.toUpper`).  Defined over
the character list so that closed instances reduce by `decide` / `rfl` (the
library's `String.toUpper` recurses on byte positions and does not). -/
def pyUpper (s : String) : String := ⟨s.data.map Char.toUpper⟩

/-- Python's `str.lower()`, same remarks as `pyUpper`. -/
def pyLower (s : String) : String := ⟨s.data.map Char.toLower⟩

/-- One row of the hardcoded fallback table. -/
structure FallbackBase where
  name : String
  sector : String
  approx_price : ℚ
  deriving DecidableEq, Repr

/-- The hardcoded six-ticker table `fallback_data` of
`get_fallback_stock_data`. -/
def fallback_data : List (String × FallbackBase) :=
  [("AAPL", ⟨"Apple Inc.", "Technology", 175⟩),
   ("GOOGL", ⟨"Alphabet Inc.", "Technology", 140⟩),
   ("MSFT", ⟨"Microsoft Corporation", "Technology", 420⟩),
   ("NVDA", ⟨"NVIDIA Corporation", "Technology", 900⟩),
   ("TSLA", ⟨"Tesla, Inc.", "Automotive", 250⟩),
   ("AMZN", ⟨"Amazon.com Inc.", "E-commerce", 155⟩)]

/-- `MultiAgentSystem.get_fallback_stock_data`: the static record substituted
when the live provider fails.  `fallback_data.get(symbol.upper(), {...})`
becomes a `List.lookup` on the upper-cased symbol with the generic
placeholder as default. -/
def get_fallback_stock_data (symbol : String) (error_msg : String) : StockData :=
  let base := (fallback_data.lookup (pyUpper symbol)).getD
      ⟨symbol ++ " Corporation", "Unknown", 100⟩
  { symbol := symbol
    current_price := .str "API Limited"
    previous_close := .str "API Limited"
    price_change := .str "N/A"
    price_change_percent := .str "N/A"
    market_cap := .str "API Limited"
    pe_ratio := .str "N/A"
    dividend_yield := .str "N/A"
    week52_high := .str "N/A"
    week52_low := .str "N/A"
    company_name := base.name
    sector := base.sector
    industry := "N/A"
    volume := .str "N/A"
    data_source := "Fallback Data"
    error_msg := some ("API Error: " ++ error_msg)
    note := some "Using AI analysis instead of real-time data due to API limitations" }

/-- Python's `round(x, 2)` over the exact-rational model: round to a multiple
of 1/100 (the half-to-even tie rule of Python is abstracted as `round`; no
statement below depends on ties). -/
def round2 (x : ℚ) : ℚ := ((round (x * 100) : ℤ) : ℚ) / 100

/-- `MultiAgentSystem.get_stock_data` (the body inside the `st.cache_data`
decorator).  The outer `try` falls back on a raised exception of the history
fetch or on empty history; a failing `stock.info` is caught by the *inner*
`try` and replaced by the empty dict, after which the live record is still
returned, its descriptive fields defaulted exactly as the chained
`info.get(..., default)` calls do. -/
def get_stock_data (env : YFEnv) (symbol : String) : StockData :=
  match env.history with
  | .error e => get_fallback_stock_data symbol e
  | .ok closes =>
    if closes.isEmpty then
      -- `raise Exception("No historical data available")`, caught by the same `try`
      get_fallback_stock_data symbol "No historical data available"
    else
      let current_price := closes.getLast?.getD 0        -- hist['Close'].iloc[-1]
      let previous_close :=                              -- iloc[-2] if len > 1 else current
        if closes.length > 1 then (closes.get? (closes.length - 2)).getD 0
        else current_price
      let info := match env.info with
        | .ok i => i
        | .error _ => Info.empty
      { symbol := symbol
        current_price := .num (round2 current_price)
        previous_close := .num (round2 previous_close)
        price_change := .num (round2 (current_price - previous_close))
        price_change_percent :=
          .num (round2 (((current_price - previous_close) / previous_close) * 100))
        market_cap := info.marketCap.getD (.str "N/A")
        pe_ratio := info.trailingPE.getD (.str "N/A")
        dividend_yield := info.dividendYield.getD (.str "N/A")
        week52_high := info.fiftyTwoWeekHigh.getD (.str "N/A")
        week52_low := info.fiftyTwoWeekLow.getD (.str "N/A")
        company_name := info.longName.getD symbol
        sector := info.sector.getD "N/A"
        industry := info.industry.getD "N/A"
        volume := info.volume.getD (.str "N/A")
        data_source := "Yahoo Finance (Limited)"
        error_msg := none
        note := none }

/-- One entry of the message list sent to the chat-completion endpoint. -/
structure Message where
  role : String
  content : String
  deriving DecidableEq, Repr

/-- The request `call_groq_api` posts: fixed model, message list,
`max_tokens = 1000`, `temperature = 0.7`, bearer authorization header. -/
structure GroqRequest where
  model : String
  messages : List Message
  max_tokens : ℕ
  temperature : ℚ
  authorization : String
  deriving DecidableEq, Repr

/-- Environment of the Groq endpoint: the credential read from the
process environment (`os.getenv('GROQ_API_KEY')`) and the outcome of the
whole `requests.post` / `raise_for_status` / JSON-extraction block — `ok`
carries the extracted message content, `error` carries `str(e)` of whatever
exception (network, HTTP status, malformed response) was raised. -/
structure GroqEnv where
  groq_api_key : Option String
  post : GroqRequest → Except String String

/-- `MultiAgentSystem.call_groq_api`.  The second component counts the
network calls issued (0 when the key is missing, 1 otherwise — the source
has no retry loop). -/
def call_groq_api (env : GroqEnv) (messages : List Message) (model : String) :
    String × ℕ :=
  match env.groq_api_key with
  | none => ("Error: GROQ_API_KEY not found. Please add it to your .env file.", 0)
  | some key =>
    match env.post ⟨model, messages, 1000, 7/10, "Bearer " ++ key⟩ with
    | .ok content => (content, 1)
    | .error e => ("Error calling Groq API: " ++ e, 1)

/-- The sidebar API-status indicator of `main` (lines 308-313): the static
message displayed for the credential state. -/
def api_status_message : Option String → String
  | some _ => "✅ Groq API Key Found"
  | none => "❌ Groq API Key Missing"

/-- `MultiAgentSystem.web_search_agent`. -/
def web_search_agent (env : GroqEnv) (query : String) : String × ℕ :=
  call_groq_api env
    [⟨"system", "You are a web search agent. Provide comprehensive information about the query as if you searched the web. Always include sources and current information. Format your response in markdown."⟩,
     ⟨"user", "Search for information about: " ++ query⟩]
    "llama3-70b-8192"

/-- The full environment of the multi-agent system: the Groq endpoint plus a
yfinance outcome per ticker symbol. -/
structure Env where
  groq : GroqEnv
  yf : String → YFEnv

/-- Python truthiness of the optional symbol argument (`if symbol:`):
`None` and the empty string are falsy. -/
def truthy : Option String → Bool
  | none => false
  | some s => !(s == "")

/-- Python's substring operator `sub in s`. -/
def containsSub (s sub : String) : Bool := decide (sub.data <:+: s.data)

/-- The fixed keyword list of `multi_agent_response`. -/
def finance_keywords : List String :=
  ["stock", "price", "financial", "investment", "market", "analyst",
   "recommendation", "earnings"]

/-- The router's classification test:
`any(keyword in query.lower() for keyword in finance_keywords)`. -/
def is_finance_query (query : String) : Bool :=
  finance_keywords.any (fun kw => containsSub (pyLower query) kw)

/-- The `price_change_indicator` expression of `finance_agent` (live branch;
the record's `price_change` there is always numeric). -/
def price_change_indicator (v : FieldVal) : String :=
  match v with
  | .num q => if 0 < q then "📈" else if q < 0 then "📉" else "➡️"
  | .str _ => "➡️"

/-- The `stock_info` f-string of the fallback branch of `finance_agent`
(lines 209-222), with the record fields spliced in. -/
def fallbackStockInfo (symbol : String) (d : StockData) : String :=
  "\n                **Stock Analysis for " ++ d.company_name ++ " (" ++ symbol
    ++ ")**\n                \n                ⚠️ **Note**: "
    ++ (d.note.getD "Using AI analysis due to API limitations")
    ++ "\n                \n                | Information | Value |\n                |-------------|-------|\n                | Company | "
    ++ d.company_name ++ " |\n                | Sector | " ++ d.sector
    ++ " |\n                | Data Source | " ++ d.data_source
    ++ " |\n                | API Status | Limited due to rate limiting |\n                \n                **Error Details**: "
    ++ (d.error_msg.getD "API rate limit exceeded") ++ "\n                "

/-- The `stock_info` f-string of the live branch of `finance_agent`
(lines 232-249). -/
def liveStockInfo (symbol : String) (d : StockData) : String :=
  "\n                **Stock Information for " ++ d.company_name ++ " (" ++ symbol
    ++ ")**\n                \n                | Metric | Value |\n                |--------|-------|\n                | Current Price | $"
    ++ d.current_price.render ++ " |\n                | Previous Close | $"
    ++ d.previous_close.render ++ " |\n                | Price Change | "
    ++ price_change_indicator d.price_change ++ " $" ++ d.price_change.render
    ++ " (" ++ d.price_change_percent.render
    ++ "%) |\n                | Market Cap | " ++ d.market_cap.render
    ++ " |\n                | P/E Ratio | " ++ d.pe_ratio.render
    ++ " |\n                | Dividend Yield | " ++ d.dividend_yield.render
    ++ " |\n                | 52 Week High | $" ++ d.week52_high.render
    ++ " |\n                | 52 Week Low | $" ++ d.week52_low.render
    ++ " |\n                | Sector | " ++ d.sector
    ++ " |\n                | Industry | " ++ d.industry
    ++ " |\n                | Volume | " ++ d.volume.render
    ++ " |\n                | Data Source | " ++ d.data_source
    ++ " |\n                "

/-- `MultiAgentSystem.finance_agent`.  The dead `if "error" in stock_data`
check of line 204 is omitted: no constructor of `StockData` ever produces an
`"error"` key.  In the fallback branch the Python code builds `stock_info`
and then does not use it in the prompt; the unused binding is kept. -/
def finance_agent (env : Env) (query : String) (symbol : Option String) : String :=
  if truthy symbol then
    let s := symbol.getD ""
    let stock_data := get_stock_data (env.yf s) s
    if stock_data.data_source == "Fallback Data" then
      let _stock_info := fallbackStockInfo s stock_data
      (call_groq_api env.groq
        [⟨"system", "You are a financial analysis agent. The user is asking about a stock but real-time data is unavailable due to API limitations. Provide a comprehensive analysis based on your knowledge of the company, including general investment considerations, company background, market position, and typical financial metrics to look for. Be honest about data limitations but still provide valuable insights."⟩,
         ⟨"user", "Analyze " ++ s ++ " (" ++ stock_data.company_name ++ ") in the "
           ++ stock_data.sector ++ " sector. Query: " ++ query
           ++ "\n\nNote: Real-time data unavailable due to API limits. Please provide analysis based on your knowledge."⟩]
        "llama3-70b-8192").1
    else
      let stock_info := liveStockInfo s stock_data
      (call_groq_api env.groq
        [⟨"system", "You are a financial analysis agent. Analyze the provided stock data and provide insights, recommendations, and analysis. Format your response in markdown with tables where appropriate. If some data shows 'N/A' or 'API Limited', acknowledge this and focus on available data."⟩,
         ⟨"user", "Analyze this stock data and query: " ++ query
           ++ "\n\nStock Data:\n" ++ stock_info⟩]
        "llama3-70b-8192").1
  else
    (call_groq_api env.groq
      [⟨"system", "You are a financial analysis agent. Provide financial insights and analysis. Format your response in markdown with tables where appropriate."⟩,
       ⟨"user", query⟩]
      "llama3-70b-8192").1

/-- A top-level agent invocation issued by the router, recorded for the
dispatch trace. -/
inductive AgentCall where
  | financeCall (query : String) (symbol : Option String)
  | webSearchCall (query : String)
  deriving DecidableEq, Repr

/-- `MultiAgentSystem.multi_agent_response`: the two-branch router.  Returns
the composed markdown document together with the list of agent invocations it
issued, in order. -/
def multi_agent_response (env : Env) (query : String) (symbol : Option String) :
    String × List AgentCall :=
  if is_finance_query query && truthy symbol then
    let s := symbol.getD ""
    let finance_response := finance_agent env query symbol
    let web_response := (web_search_agent env.groq ("latest news and analysis for " ++ s)).1
    ("\n## 📊 Financial Analysis\n" ++ finance_response
       ++ "\n\n## 🌐 Latest News & Web Search\n" ++ web_response
       ++ "\n\n---\n*Analysis combining real-time financial data and web search results*\n            ",
     [AgentCall.financeCall query symbol,
      AgentCall.webSearchCall ("latest news and analysis for " ++ s)])
  else
    let web_response := (web_search_agent env.groq query).1
    ("\n## 🌐 Web Search Results\n" ++ web_response
       ++ "\n\n---\n*Information gathered from web search*\n            ",
     [AgentCall.webSearchCall query])

/-- The `st.cache_data(ttl=300)` store wrapped around `get_stock_data`:
entries keyed by the symbol argument (`_self` is excluded from the key by its
leading underscore), stamped with their insertion time in whole seconds
(observation instants are modelled at integral seconds; nothing below depends
on fractional time). -/
def CacheStore : Type := List (String × (ℤ × StockData))

/-- Lookup in the cache store at time `now`: a hit requires an entry younger
than the 300-second TTL. -/
def cacheLookup (cache : CacheStore) (now : ℤ) (symbol : String) :
    Option StockData :=
  match cache.lookup symbol with
  | some (t, v) => if now - t < 300 then some v else none
  | none => none

/-- `get_stock_data` as actually invoked through its `st.cache_data(ttl=300)`
decorator: on a fresh cached entry the underlying function is skipped; on a
miss the underlying function runs and its return value — whatever it is, the
function never raises — is stored.  Returns the record, the new store and the
number of underlying provider fetches performed (0 or 1). -/
def get_stock_data_cached (env : YFEnv) (now : ℤ) (cache : CacheStore)
    (symbol : String) : StockData × CacheStore × ℕ :=
  match cacheLookup cache now symbol with
  | some v => (v, cache, 0)
  | none =>
    let v := get_stock_data env symbol
    (v, (symbol, (now, v)) :: cache, 1)

/-- One entry of `st.session_state.chat_history` in `streamlit.py`: the
4-tuple appended at line 409. -/
structure ChatEntry where
  user_msg : String
  agent_response : String
  timestamp : String
  agent_used : String
  deriving DecidableEq, Repr

/-- The submission handler's history update
(`st.session_state.chat_history.append((...))`, line 409): one entry appended
at the end. -/
def append_chat (hist : List ChatEntry) (e : ChatEntry) : List ChatEntry :=
  hist ++ [e]

/-- `display_chat_history` of `simple_streamlit.py`:
`st.session_state.chat_history[-5:]` — the last five entries (all of them when
fewer), read-only. -/
def display_chat_history (hist : List (String × String)) : List (String × String) :=
  hist.drop (hist.length - 5)

/-- A concrete Groq environment used by the closed witness statements: key
present, every post answered with a fixed body. -/
def groqEnvOk : GroqEnv := ⟨some "k", fun _ => .ok "ok"⟩

/-- A concrete Groq environment with the credential absent. -/
def groqEnvNoKey : GroqEnv := ⟨none, fun _ => .ok "ok"⟩

/-- A concrete yfinance environment: two closing prices, full info fetch
failure. -/
def yfEnvInfoFail : YFEnv := ⟨.ok [100, 101], .error "connection reset"⟩

/-- A concrete yfinance environment whose history fetch raises. -/
def yfEnvNetFail : YFEnv := ⟨.error "HTTPError 429", .error "HTTPError 429"⟩

/-- A concrete yfinance environment with a one-point history and successful
empty info. -/
def yfEnvOnePoint : YFEnv := ⟨.ok [7], .ok Info.empty⟩

/-- A concrete healthy yfinance environment. -/
def yfEnvOk : YFEnv := ⟨.ok [50, 55], .ok Info.empty⟩

/-- A concrete yfinance environment with empty price history. -/
def yfEnvEmpty : YFEnv := ⟨.ok [], .ok Info.empty⟩

/-- A concrete full environment for the router witnesses. -/
def envW : Env := ⟨groqEnvOk, fun _ => yfEnvOk⟩

/-- Bridge between the Boolean Python substring operator and the list-level
containment relation. -/
theorem containsSub_eq_true_iff {s sub : String} :
    containsSub s sub = true ↔ sub.data <:+: s.data := by
  simp [containsSub]

/-- Negative form of `containsSub_eq_true_iff`. -/
theorem containsSub_eq_false_iff {s sub : String} :
    containsSub s sub = false ↔ ¬ sub.data <:+: s.data := by
  simp [containsSub]

/-- Growing a containment on the right. -/
theorem isInfixGrow_right {α : Type} {nd a : List α} (q : List α)
    (hin : nd <:+: a) : nd <:+: a ++ q :=
  hin.trans ⟨[], q, rfl⟩

/-- Growing a containment on the left. -/
theorem isInfixGrow_left {α : Type} {nd a : List α} (p : List α)
    (hin : nd <:+: a) : nd <:+: p ++ a :=
  hin.trans ⟨p, [], by simp⟩

/-- Splitting a containment across a two-part concatenation whose right part
starts with a marker element absent from the needle: the needle cannot
straddle the boundary, so it lies wholly in one part. -/
theorem sub_split_head {α : Type} {nd r s : List α} {c : α}
    (hc : c ∉ nd) (hs : s.head? = some c) (hin : nd <:+: (r ++ s)) :
    nd <:+: r ∨ nd <:+: s := by
  obtain ⟨t, u, htu⟩ := hin
  by_cases h1 : t.length + nd.length ≤ r.length
  · left
    have h3 : t ++ nd = (t ++ nd ++ u).take (t.length + nd.length) :=
      ( List.take_left' (by simp)).symm
    have h4 : t ++ nd = r.take (t.length + nd.length) := by
      conv_lhs => rw [h3]
      rw [htu, List.take_append_of_le_length h1]
    have h5 : nd <:+: t ++ nd := ( List.suffix_append t nd).isInfix
    rw [h4] at h5
    exact h5.trans (( List.take_prefix _ r).isInfix)
  · by_cases h2 : r.length ≤ t.length
    · right
      have h5 : t.length = r.length + (t.length - r.length) := by omega
      have h3 := congrArg (List.drop t.length) htu
      rw [List.append_assoc, List.drop_left] at h3
      rw [h5, List.drop_append] at h3
      have h4 : nd <:+: nd ++ u := ( List.prefix_append nd u).isInfix
      rw [h3] at h4
      exact h4.trans (( List.drop_suffix _ s).isInfix)
    · exfalso
      apply hc
      have hlen : r.length < (t ++ nd).length := by
        rw [List.length_append]; omega
      have hru : (r ++ s)[r.length]? = some c := by
        rw [ List.getElem?_append_right (Nat.le_refl _), Nat.sub_self,
            ← List.head?_eq_getElem?]
        exact hs
      rw [← htu] at hru
      rw [ List.getElem?_append_left hlen] at hru
      rw [ List.getElem?_append_right (by omega : t.length ≤ r.length)] at hru
      exact List.getElem?_mem hru

/-- Mirror image of `sub_split_head`: the left part ends with a marker element
absent from the needle. -/
theorem sub_split_last {α : Type} {nd p r : List α} {c : α}
    (hc : c ∉ nd) (hp : p.getLast? = some c) (hin : nd <:+: (p ++ r)) :
    nd <:+: p ∨ nd <:+: r := by
  have hrev : nd.reverse <:+: (r.reverse ++ p.reverse) := by
    rw [← List.reverse_append]
    exact hin.reverse
  have hc' : c ∉ nd.reverse := by simpa using hc
  have hp' : p.reverse.head? = some c := by
    rw [List.head?_reverse]; exact hp
  rcases sub_split_head hc' hp' hrev with h | h
  · exact Or.inr ( List.reverse_infix.mp h)
  · exact Or.inl ( List.reverse_infix.mp h)

/-- Splitting a containment across a three-part concatenation whose outer
parts are delimited by a marker element absent from the needle. -/
theorem sub_split_three {α : Type} {nd a b c' : List α} (ch : α)
    (hc : ch ∉ nd) (ha : a.getLast? = some ch) (hb : c'.head? = some ch)
    (hin : nd <:+: (a ++ b ++ c')) :
    nd <:+: a ∨ nd <:+: b ∨ nd <:+: c' := by
  rw [List.append_assoc] at hin
  rcases sub_split_last hc ha hin with h | h
  · exact Or.inl h
  · rcases sub_split_head hc hb h with h' | h'
    · exact Or.inr (Or.inl h')
    · exact Or.inr (Or.inr h')

/-- C2 (counterexample): a lookup whose descriptive-field fetch
(`stock.info`) fails while the price history succeeds does *not* return the
fallback record — `get_stock_data` returns a live record tagged
"Yahoo Finance (Limited)", refuting the claim that any failure mode,
including missing descriptive fields, produces the fallback. -/
theorem c2_counterexample :
    (get_stock_data yfEnvInfoFail "AAPL").data_source = "Yahoo Finance (Limited)"
    ∧ (get_stock_data yfEnvInfoFail "AAPL").data_source ≠ "Fallback Data" := by
  exact ⟨by decide, by decide⟩

/-- C2 (amended): `get_stock_data` returns the fallback record exactly when
the history fetch raises (the exception message is passed through) or the
history is empty (message "No historical data available"); a failure of the
descriptive-field fetch alone yields a live record whose descriptive fields
default to "N/A" (company name defaults to the symbol). -/
theorem c2_amended (env : YFEnv) (symbol : String) :
    (∀ e, env.history = .error e →
      get_stock_data env symbol = get_fallback_stock_data symbol e)
    ∧ (env.history = .ok [] →
      get_stock_data env symbol
        = get_fallback_stock_data symbol "No historical data available")
    ∧ (∀ closes e, env.history = .ok closes → closes ≠ [] →
        env.info = .error e →
        (get_stock_data env symbol).data_source = "Yahoo Finance (Limited)"
        ∧ (get_stock_data env symbol).company_name = symbol
        ∧ (get_stock_data env symbol).sector = "N/A"
        ∧ (get_stock_data env symbol).market_cap = FieldVal.str "N/A") := by
  refine ⟨?_, ?_, ?_⟩
  · intro e he
    simp [get_stock_data, he]
  · intro he
    simp [get_stock_data, he]
  · intro closes e hh hne hi
    rcases closes with _ | ⟨c, cs⟩
    · exact absurd rfl hne
    · simp [get_stock_data, hh, hi, Info.empty]

/-- C2 witness: the three scenarios of `c2_amended` instantiated — a raising
history fetch, an empty history, and an info-only failure. -/
theorem c2_amended_witness :
    yfEnvNetFail.history = Except.error "HTTPError 429"
    ∧ get_stock_data yfEnvNetFail "AAPL" = get_fallback_stock_data "AAPL" "HTTPError 429"
    ∧ get_stock_data yfEnvEmpty "X"
        = get_fallback_stock_data "X" "No historical data available"
    ∧ (get_stock_data yfEnvInfoFail "AAPL").data_source = "Yahoo Finance (Limited)" := by
  refine ⟨rfl, ?_, ?_, ?_⟩
  · exact (c2_amended yfEnvNetFail "AAPL").1 "HTTPError 429" rfl
  · exact (c2_amended yfEnvEmpty "X").2.1 rfl
  · exact ((c2_amended yfEnvInfoFail "AAPL").2.2 [100, 101] "connection reset" rfl
      (List.cons_ne_nil _ _) rfl).1

/-- C3: for a symbol whose upper-cased form is not a key of the six-ticker
table, `get_fallback_stock_data` returns (it is total) the generic
placeholder record: company name `symbol ++ " Corporation"` and sector
"Unknown". -/
theorem c3_unknown_symbol_placeholder (symbol error_msg : String)
    (h : fallback_data.lookup (pyUpper symbol) = none) :
    (get_fallback_stock_data symbol error_msg).company_name = symbol ++ " Corporation"
    ∧ (get_fallback_stock_data symbol error_msg).sector = "Unknown" := by
  simp [get_fallback_stock_data, h]

/-- C3 witness: the unrecognized ticker "ZZZZ". -/
theorem c3_unknown_symbol_placeholder_witness :
    fallback_data.lookup (pyUpper "ZZZZ") = none
    ∧ (get_fallback_stock_data "ZZZZ" "boom").company_name = "ZZZZ Corporation"
    ∧ (get_fallback_stock_data "ZZZZ" "boom").sector = "Unknown" := by
  refine ⟨by decide, ?_, ?_⟩
  · exact ((c3_unknown_symbol_placeholder "ZZZZ" "boom" (by decide)).1).trans (by decide)
  · exact (c3_unknown_symbol_placeholder "ZZZZ" "boom" (by decide)).2

/-- C4: a price history with exactly one point does not raise — the previous
close defaults to the current price, so the computed price change and
percentage change are both 0. -/
theorem c4_single_point_history (env : YFEnv) (symbol : String) (p : ℚ)
    (h : env.history = .ok [p]) :
    (get_stock_data env symbol).price_change = FieldVal.num 0
    ∧ (get_stock_data env symbol).price_change_percent = FieldVal.num 0 := by
  simp [get_stock_data, h, round2]

/-- C4 witness: a one-point history at price 7. -/
theorem c4_single_point_history_witness :
    yfEnvOnePoint.history = Except.ok [7]
    ∧ (get_stock_data yfEnvOnePoint "X").price_change = FieldVal.num 0
    ∧ (get_stock_data yfEnvOnePoint "X").price_change_percent = FieldVal.num 0 := by
  refine ⟨rfl, ?_, ?_⟩
  · exact (c4_single_point_history yfEnvOnePoint "X" 7 rfl).1
  · exact (c4_single_point_history yfEnvOnePoint "X" 7 rfl).2

/-- C5 (counterexample): a lookup that took the fallback path *is* cached.
The first call (failing provider) returns a fallback record and stores it;
a second call 10 seconds later — with the provider now healthy — performs no
provider fetch and still returns the cached fallback record, refuting
"failed lookups are not cached". -/
theorem c5_counterexample :
    (get_stock_data_cached yfEnvNetFail 0 [] "AAPL").1.data_source = "Fallback Data"
    ∧ (get_stock_data_cached yfEnvOk 10
        (get_stock_data_cached yfEnvNetFail 0 [] "AAPL").2.1 "AAPL").2.2 = 0
    ∧ (get_stock_data_cached yfEnvOk 10
        (get_stock_data_cached yfEnvNetFail 0 [] "AAPL").2.1 "AAPL").1.data_source
        = "Fallback Data" := by
  exact ⟨by decide, by decide, by decide⟩

/-- C5 (amended): repeated calls with the same symbol within the 5-minute
window issue no second call to the provider, and the cached record — whatever
it is — is returned unchanged.  Every completed lookup is cached, including
those that took the fallback path: `get_stock_data` never raises, so
`st.cache_data` stores its fallback return values exactly like successes. -/
theorem c5_cache_window (env₁ env₂ : YFEnv) (t₁ t₂ : ℤ) (c₀ : CacheStore)
    (s : String)
    (hmiss : (get_stock_data_cached env₁ t₁ c₀ s).2.2 = 1)
    (_h₁ : t₁ ≤ t₂) (h₂ : t₂ - t₁ < 300) :
    (get_stock_data_cached env₂ t₂ (get_stock_data_cached env₁ t₁ c₀ s).2.1 s).2.2 = 0
    ∧ (get_stock_data_cached env₂ t₂ (get_stock_data_cached env₁ t₁ c₀ s).2.1 s).1
        = (get_stock_data_cached env₁ t₁ c₀ s).1 := by
  rcases hL : cacheLookup c₀ t₁ s with _ | v
  · have hstore : (get_stock_data_cached env₁ t₁ c₀ s).2.1
        = (s, (t₁, get_stock_data env₁ s)) :: c₀ := by
      simp [get_stock_data_cached, hL]
    have hval : (get_stock_data_cached env₁ t₁ c₀ s).1 = get_stock_data env₁ s := by
      simp [get_stock_data_cached, hL]
    have hhit : cacheLookup ((s, (t₁, get_stock_data env₁ s)) :: c₀) t₂ s
        = some (get_stock_data env₁ s) := by
      simp [cacheLookup, List.lookup, h₂]
    rw [hstore]
    simp [get_stock_data_cached, hhit, hval, hL]
  · exfalso
    have h0 : (get_stock_data_cached env₁ t₁ c₀ s).2.2 = 0 := by
      simp [get_stock_data_cached, hL]
    omega

/-- C5 witness: first call misses on the empty store (provider fetched once),
second call 10 seconds later fetches nothing. -/
theorem c5_cache_window_witness :
    (get_stock_data_cached yfEnvNetFail 0 [] "AAPL").2.2 = 1
    ∧ (0 : ℤ) ≤ 10 ∧ (10 : ℤ) - 0 < 300
    ∧ (get_stock_data_cached yfEnvOk 10
        (get_stock_data_cached yfEnvNetFail 0 [] "AAPL").2.1 "AAPL").2.2 = 0 := by
  refine ⟨by decide, by decide, by decide, ?_⟩
  exact (c5_cache_window yfEnvNetFail yfEnvOk 0 10 [] "AAPL"
    (by decide) (by decide) (by decide)).1

/-- C6: with the credential environment variable absent, `call_groq_api`
returns the fixed warning string and issues zero network calls, and the
sidebar shows the static missing-key warning. -/
theorem c6_missing_key (env : GroqEnv) (messages : List Message) (model : String)
    (h : env.groq_api_key = none) :
    call_groq_api env messages model
      = ("Error: GROQ_API_KEY not found. Please add it to your .env file.", 0)
    ∧ api_status_message env.groq_api_key = "❌ Groq API Key Missing" := by
  simp [call_groq_api, api_status_message, h]

/-- C6 witness: a concrete keyless environment. -/
theorem c6_missing_key_witness :
    groqEnvNoKey.groq_api_key = none
    ∧ call_groq_api groqEnvNoKey [] "llama3-70b-8192"
        = ("Error: GROQ_API_KEY not found. Please add it to your .env file.", 0)
    ∧ api_status_message groqEnvNoKey.groq_api_key = "❌ Groq API Key Missing" := by
  refine ⟨rfl, ?_, ?_⟩
  · exact (c6_missing_key groqEnvNoKey [] "llama3-70b-8192" rfl).1
  · exact (c6_missing_key groqEnvNoKey [] "llama3-70b-8192" rfl).2

/-- C7: `call_groq_api` is total (it returns a `String`, never propagating an
exception or structured error), issues at most one network call (no retry),
and its result is exactly one of: the missing-key warning, the extracted
response content, or the error string built from the caught exception. -/
theorem c7_call_outcomes (env : GroqEnv) (messages : List Message) (model : String) :
    (call_groq_api env messages model).2 ≤ 1
    ∧ ((env.groq_api_key = none
        ∧ call_groq_api env messages model
            = ("Error: GROQ_API_KEY not found. Please add it to your .env file.", 0))
      ∨ (∃ key content, env.groq_api_key = some key
        ∧ env.post ⟨model, messages, 1000, 7/10, "Bearer " ++ key⟩ = .ok content
        ∧ call_groq_api env messages model = (content, 1))
      ∨ (∃ key e, env.groq_api_key = some key
        ∧ env.post ⟨model, messages, 1000, 7/10, "Bearer " ++ key⟩ = .error e
        ∧ call_groq_api env messages model
            = ("Error calling Groq API: " ++ e, 1))) := by
  rcases hk : env.groq_api_key with _ | key
  · refine ⟨by simp [call_groq_api, hk], Or.inl ⟨rfl, by simp [call_groq_api, hk]⟩⟩
  · rcases hp : env.post ⟨model, messages, 1000, 7/10, "Bearer " ++ key⟩ with e | content
    · exact ⟨by simp [call_groq_api, hk, hp],
        Or.inr (Or.inr ⟨key, e, rfl, hp, by simp [call_groq_api, hk, hp]⟩)⟩
    · exact ⟨by simp [call_groq_api, hk, hp],
        Or.inr (Or.inl ⟨key, content, rfl, hp, by simp [call_groq_api, hk, hp]⟩)⟩

/-- C8: every record is tagged with its source — "Yahoo Finance (Limited)"
for the live path (with no `note` / `error_msg` keys) and "Fallback Data" for
the fallback path — and every fallback record carries the explicit
data-limited marker note, the "API Limited" price placeholder and the error
message.  (The embedding is purely functional: records are immutable values,
and the source never rebuilds a record after construction — `finance_agent`
and the UI only read fields.) -/
theorem c8_record_tagging (env : YFEnv) (symbol error_msg : String) :
    ((get_stock_data env symbol).data_source = "Yahoo Finance (Limited)"
        ∧ (get_stock_data env symbol).error_msg = none
        ∧ (get_stock_data env symbol).note = none
      ∨ (get_stock_data env symbol).data_source = "Fallback Data"
        ∧ (get_stock_data env symbol).note
            = some "Using AI analysis instead of real-time data due to API limitations")
    ∧ (get_fallback_stock_data symbol error_msg).data_source = "Fallback Data"
    ∧ (get_fallback_stock_data symbol error_msg).note
        = some "Using AI analysis instead of real-time data due to API limitations"
    ∧ (get_fallback_stock_data symbol error_msg).current_price
        = FieldVal.str "API Limited"
    ∧ (get_fallback_stock_data symbol error_msg).error_msg
        = some ("API Error: " ++ error_msg) := by
  refine ⟨?_, by simp [get_fallback_stock_data], by simp [get_fallback_stock_data],
    by simp [get_fallback_stock_data], by simp [get_fallback_stock_data]⟩
  rcases hh : env.history with e | closes
  · right
    simp [get_stock_data, hh, get_fallback_stock_data]
  · rcases closes with _ | ⟨c, cs⟩
    · right
      simp [get_stock_data, hh, get_fallback_stock_data]
    · left
      simp [get_stock_data, hh]

/-- C9: the session history preserves insertion order — each submission
appends exactly one 4-tuple entry at the end, leaving prior entries
untouched — and `display_chat_history` is a pure read of the last five
entries (a suffix of the list of length `min 5 n`). -/
theorem c9_history_order (hist : List ChatEntry) (e : ChatEntry)
    (shown : List (String × String)) :
    (append_chat hist e).length = hist.length + 1
    ∧ (append_chat hist e).take hist.length = hist
    ∧ (append_chat hist e).getLast? = some e
    ∧ display_chat_history shown <:+ shown
    ∧ (display_chat_history shown).length = min 5 shown.length := by
  refine ⟨by simp [append_chat], ?_, by simp [append_chat], ?_, ?_⟩
  · exact List.take_left hist [e]
  · exact List.drop_suffix _ _
  · simp only [display_chat_history, List.length_drop]
    omega

/-- C10: the fallback-table lookup is case-insensitive — the symbol is
upper-cased before the lookup, so any symbol whose upper-cased form hits a
table row receives that row's name and sector — while the `symbol` field of
the returned record always preserves the caller's original string. -/
theorem c10_case_insensitive_lookup (s e : String) :
    (get_fallback_stock_data s e).symbol = s
    ∧ (∀ base, fallback_data.lookup (pyUpper s) = some base →
        (get_fallback_stock_data s e).company_name = base.name
        ∧ (get_fallback_stock_data s e).sector = base.sector)
    ∧ (∀ s', pyUpper s' = pyUpper s →
        fallback_data.lookup (pyUpper s') = fallback_data.lookup (pyUpper s)) := by
  refine ⟨by simp [get_fallback_stock_data], ?_, ?_⟩
  · intro base hb
    simp [get_fallback_stock_data, hb]
  · intro s' h
    rw [h]

/-- C10 witness: "aapl" resolves to the Apple Inc. row while keeping its
lower-case `symbol` field. -/
theorem c10_case_insensitive_lookup_witness :
    (get_fallback_stock_data "aapl" "err").symbol = "aapl"
    ∧ fallback_data.lookup (pyUpper "aapl") = some ⟨"Apple Inc.", "Technology", 175⟩
    ∧ (get_fallback_stock_data "aapl" "err").company_name = "Apple Inc."
    ∧ pyUpper "aapl" = pyUpper "AAPL" := by
  refine ⟨(c10_case_insensitive_lookup "aapl" "err").1, rfl, ?_, by decide⟩
  exact ((c10_case_insensitive_lookup "aapl" "err").2.1
    ⟨"Apple Inc.", "Technology", 175⟩ rfl).1

set_option maxRecDepth 8192 in
/-- C1: the router classifies a query as finance-related exactly when its
lower-cased text contains one of the fixed keywords as a substring; when
finance-related with a (truthy) ticker present it invokes the finance agent
with the symbol and the web-search agent with the "latest news and analysis
for ..." query, and the composed document contains both fixed section headers;
in every other case it issues exactly one search call with the original query
and the composed document carries the web-search header and — headers being
confined to the fixed template, whose variable slot is the search response —
neither finance-branch header unless the search response itself contains it. -/
theorem c1_router (env : Env) (query : String) (symbol : Option String) :
    (is_finance_query query = true ↔
      ∃ kw, kw ∈ finance_keywords ∧ kw.data <:+: (pyLower query).data)
    ∧ (∀ s, symbol = some s → s ≠ "" → is_finance_query query = true →
        (multi_agent_response env query symbol).2
          = [AgentCall.financeCall query (some s),
             AgentCall.webSearchCall ("latest news and analysis for " ++ s)]
        ∧ containsSub (multi_agent_response env query symbol).1
            "Financial Analysis" = true
        ∧ containsSub (multi_agent_response env query symbol).1
            "Latest News & Web Search" = true)
    ∧ (is_finance_query query = false ∨ truthy symbol = false →
        (multi_agent_response env query symbol).2 = [AgentCall.webSearchCall query]
        ∧ containsSub (multi_agent_response env query symbol).1
            "Web Search Results" = true
        ∧ (containsSub (web_search_agent env.groq query).1 "Financial Analysis" = false →
            containsSub (multi_agent_response env query symbol).1
              "Financial Analysis" = false)
        ∧ (containsSub (web_search_agent env.groq query).1
              "Latest News & Web Search" = false →
            containsSub (multi_agent_response env query symbol).1
              "Latest News & Web Search" = false)) := by
  refine ⟨?_, ?_, ?_⟩
  · simp [is_finance_query, containsSub, List.any_eq_true]
  · rintro s rfl hne hfin
    have hcond : (is_finance_query query && truthy (some s)) = true := by
      simp [truthy, hfin, hne]
    have hout1 : (multi_agent_response env query (some s)).1
        = "\n## 📊 Financial Analysis\n" ++ finance_agent env query (some s)
          ++ "\n\n## 🌐 Latest News & Web Search\n"
          ++ (web_search_agent env.groq ("latest news and analysis for " ++ s)).1
          ++ "\n\n---\n*Analysis combining real-time financial data and web search results*\n            " := by
      simp [multi_agent_response, hcond]
    have hout2 : (multi_agent_response env query (some s)).2
        = [AgentCall.financeCall query (some s),
           AgentCall.webSearchCall ("latest news and analysis for " ++ s)] := by
      simp [multi_agent_response, hcond]
    refine ⟨hout2, ?_, ?_⟩
    · rw [containsSub_eq_true_iff, hout1]
      simp only [String.data_append, List.append_assoc]
      exact isInfixGrow_right _ (by decide)
    · rw [containsSub_eq_true_iff, hout1]
      simp only [String.data_append, List.append_assoc]
      exact isInfixGrow_left _ (isInfixGrow_left _ (isInfixGrow_right _ (by decide)))
  · intro hor
    have hcond : (is_finance_query query && truthy symbol) = false := by
      rcases hor with h | h
      · simp [h]
      · simp [h]
    have hout1 : (multi_agent_response env query symbol).1
        = "\n## 🌐 Web Search Results\n" ++ (web_search_agent env.groq query).1
          ++ "\n\n---\n*Information gathered from web search*\n            " := by
      simp [multi_agent_response, hcond]
    have hout2 : (multi_agent_response env query symbol).2
        = [AgentCall.webSearchCall query] := by
      simp [multi_agent_response, hcond]
    refine ⟨hout2, ?_, ?_, ?_⟩
    · rw [containsSub_eq_true_iff, hout1]
      simp only [String.data_append, List.append_assoc]
      exact isInfixGrow_right _ (by decide)
    · intro hw
      rw [containsSub_eq_false_iff] at hw
      rw [containsSub_eq_false_iff, hout1]
      intro hin
      simp only [String.data_append] at hin
      rcases sub_split_three '\n' (by decide) (by decide) (by decide) hin
        with h | h | h
      · exact absurd h (by decide)
      · exact hw h
      · exact absurd h (by decide)
    · intro hw
      rw [containsSub_eq_false_iff] at hw
      rw [containsSub_eq_false_iff, hout1]
      intro hin
      simp only [String.data_append] at hin
      rcases sub_split_three '\n' (by decide) (by decide) (by decide) hin
        with h | h | h
      · exact absurd h (by decide)
      · exact hw h
      · exact absurd h (by decide)

set_option maxRecDepth 8192 in
/-- C1 witness: both router branches instantiated on the concrete
environment `envW` — a finance query with ticker "NVDA", and a plain query
without ticker. -/
theorem c1_router_witness :
    ((multi_agent_response envW "stock tips" (some "NVDA")).2
        = [AgentCall.financeCall "stock tips" (some "NVDA"),
           AgentCall.webSearchCall "latest news and analysis for NVDA"]
      ∧ containsSub (multi_agent_response envW "stock tips" (some "NVDA")).1
          "Financial Analysis" = true
      ∧ containsSub (multi_agent_response envW "stock tips" (some "NVDA")).1
          "Latest News & Web Search" = true)
    ∧ ((multi_agent_response envW "hello" none).2 = [AgentCall.webSearchCall "hello"]
      ∧ containsSub (multi_agent_response envW "hello" none).1
          "Financial Analysis" = false) := by
  refine ⟨⟨?_, ?_, ?_⟩, ?_, ?_⟩
  · exact ((c1_router envW "stock tips" (some "NVDA")).2.1 "NVDA" rfl
      (by decide) (by decide)).1
  · exact ((c1_router envW "stock tips" (some "NVDA")).2.1 "NVDA" rfl
      (by decide) (by decide)).2.1
  · exact ((c1_router envW "stock tips" (some "NVDA")).2.1 "NVDA" rfl
      (by decide) (by decide)).2.2
  · exact ((c1_router envW "hello" none).2.2 (Or.inr rfl)).1
  · exact ((c1_router envW "hello" none).2.2 (Or.inr rfl)).2.2.1 (by decide)
